import Mathlib

/- Verification development for the pulse repository.

   Shallow embedding of the Subscription Lifecycle and Notification
   Dispatch Engine:
   - web-push side: lambda_functions/web_push_sender/index.js and the
     subscription manager lambda (handleSubscription, handleUnsubscription,
     generateSubscriptionId);
   - SNS side: pulse-gen-functions notificationService.ts, snsService.ts and
     handlers/notificationHandler.ts.

   The DynamoDB table is modelled as a list of records; a DynamoDB put is an
   overwrite keyed on the table key; a DynamoDB update maps the matching
   record; a DynamoDB delete filters the matching key out (and succeeds even
   when no record matches, as DynamoDB deletes do).  External collaborators
   (the web-push transport, the SNS publish call, the crypto hash used as a
   fallback in generateSubscriptionId) are passed in as function parameters,
   mirroring how the source receives their outcomes. -/

/-! Data model: web-push subscription records (DynamoDB table keyed on
    user_id + subscription_id, per the terraform table declaration). -/

/-- Encryption keys of a raw browser push subscription object, as received in
the request body; either field may be absent. -/
structure RawKeys where
  p256dh : Option String := none
  auth : Option String := none
deriving DecidableEq, Repr

/-- Raw browser push subscription object from the request body: push-service
endpoint URL plus encryption keys; fields may be absent. -/
structure RawSubscription where
  endpoint : Option String := none
  keys : Option RawKeys := none
deriving DecidableEq, Repr

/-- One stored subscription record, exactly the Item shape written by the
subscription manager lambda (part_017, handleSubscription). -/
structure SubRecord where
  user_id : String
  subscription_id : String
  subscription : RawSubscription
  status : String
  created_at : String
  updated_at : String
  failure_count : Nat
  last_notification_sent : Option String
deriving DecidableEq, Repr

/-- The subscriptions table, modelled as a list of records. -/
abbrev SubStore := List SubRecord

/-- Key match for the (user_id, subscription_id) composite table key. -/
def SubRecord.keyIs (r : SubRecord) (uid sid : String) : Bool :=
  r.user_id == uid && r.subscription_id == sid

/-- DynamoDB put on the composite key: overwrite semantics, the new item
replaces every record carrying the same key. -/
def putRecord (store : SubStore) (item : SubRecord) : SubStore :=
  item :: store.filter (fun r => !(r.keyIs item.user_id item.subscription_id))

/-! Subscription id derivation (part_017, generateSubscriptionId). -/

/-- Split a character list at the scheme separator, returning the characters
before and after the first occurrence; none when no separator occurs, which
models the URL constructor throwing on an unparsable endpoint. -/
def splitSchemeSep : List Char → Option (List Char × List Char)
  | [] => none
  | ':' :: '/' :: '/' :: rest => some ([], rest)
  | x :: xs =>
    match splitSchemeSep xs with
    | some (pre, post) => some (x :: pre, post)
    | none => none

/-- Split a character list on a separator character, like the JavaScript
String split. -/
def splitOnChar (c : Char) : List Char → List (List Char)
  | [] => [[]]
  | x :: xs =>
    let rest := splitOnChar c xs
    if x = c then [] :: rest
    else
      match rest with
      | [] => [[x]]
      | y :: ys => (x :: y) :: ys

/-- Pathname extraction of the WHATWG URL constructor, modelled structurally
over the character list: scheme separator required (otherwise the
constructor throws, yielding none), pathname is everything from the first
slash after the authority, with query and fragment stripped; a URL with no
path has pathname slash. -/
def urlPathname (endpoint : String) : Option (List Char) :=
  match splitSchemeSep endpoint.toList with
  | none => none
  | some (scheme, remainder) =>
    if scheme.isEmpty then none
    else if remainder.isEmpty then none
    else
      let afterHost := remainder.dropWhile (fun c => c ≠ '/')
      let path := if afterHost.isEmpty then ['/'] else afterHost
      let noQuery := path.takeWhile (fun c => c ≠ '?')
      some (noQuery.takeWhile (fun c => c ≠ '#'))

/-- Generate a subscription id from the endpoint URL (part_017 lines
343-362).  The sha256-hex-prefix fallback of the Node crypto module is an
external primitive, passed as hash16.  Deterministic in the endpoint: takes
the last nonempty path segment when it is long enough (JavaScript picks the
last split part, falling back to the second-to-last when the last is the
empty string after a trailing slash), else hashes the full endpoint; a
failed URL parse also falls back to the hash. -/
def generateSubscriptionId (hash16 : String → String) (endpoint : String) : String :=
  match urlPathname endpoint with
  | none => hash16 endpoint
  | some pathname =>
    let pathParts := splitOnChar '/' pathname
    let n := pathParts.length
    let lastPart := pathParts.getD (n - 1) []
    let uniquePart := if !lastPart.isEmpty then lastPart else pathParts.getD (n - 2) []
    if uniquePart.isEmpty ∨ uniquePart.length < 10 then hash16 endpoint
    else String.mk (uniquePart.take 32)

/-! Subscription manager: register (handleSubscription) and deregister
    (handleUnsubscription), part_017. -/

/-- Result of the register endpoint, carrying the HTTP status code and the
fields of the response body the claims inspect. -/
inductive SubscribeResult
  | badRequest (error : String)
  | ok (subscription_id : String) (user_id : String)
deriving DecidableEq, Repr

/-- Request body of POST subscriptions. -/
structure SubscribeBody where
  user_id : Option String := none
  subscription : Option RawSubscription := none
deriving DecidableEq, Repr

/-- Register a web-push subscription (part_017, handleSubscription, lines
144-243): validate user_id, subscription.endpoint and both encryption keys
(JavaScript truthiness: a missing field and the empty string both fail),
derive the subscription id from the endpoint, then put a fresh record with
status active, failure count 0 and no last notification timestamp. -/
def handleSubscription (hash16 : String → String) (now : String)
    (store : SubStore) (body : SubscribeBody) : SubscribeResult × SubStore :=
  match body.user_id with
  | none => (.badRequest "Missing required field: user_id", store)
  | some u =>
    if u = "" then (.badRequest "Missing required field: user_id", store)
    else
      match body.subscription with
      | none => (.badRequest "Missing required field: subscription with valid endpoint", store)
      | some sub =>
        match sub.endpoint with
        | none => (.badRequest "Missing required field: subscription with valid endpoint", store)
        | some ep =>
          if ep = "" then (.badRequest "Missing required field: subscription with valid endpoint", store)
          else
            match sub.keys with
            | none => (.badRequest "Invalid subscription: missing encryption keys (p256dh, auth)", store)
            | some k =>
              match k.p256dh, k.auth with
              | some p, some a =>
                if p = "" ∨ a = "" then
                  (.badRequest "Invalid subscription: missing encryption keys (p256dh, auth)", store)
                else
                  let sid := generateSubscriptionId hash16 ep
                  let item : SubRecord :=
                    { user_id := u
                      subscription_id := sid
                      subscription := sub
                      status := "active"
                      created_at := now
                      updated_at := now
                      failure_count := 0
                      last_notification_sent := none }
                  (.ok sid u, putRecord store item)
              | _, _ =>
                  (.badRequest "Invalid subscription: missing encryption keys (p256dh, auth)", store)

/-- Result of the deregister endpoint. -/
inductive UnsubscribeResult
  | badRequest (error : String)
  | notFound (error : String)
  | ok (deleted_subscriptions : Nat) (user_id : String)
deriving DecidableEq, Repr

/-- Deregister every subscription of an owner (part_017,
handleUnsubscription, lines 248-318): query all records of the user; with
zero records respond 404 and delete nothing; otherwise delete each found
record by its composite key and report how many were deleted. -/
def handleUnsubscription (store : SubStore) (user_id : Option String) :
    UnsubscribeResult × SubStore :=
  match user_id with
  | none => (.badRequest "Missing required field: user_id", store)
  | some u =>
    if u = "" then (.badRequest "Missing required field: user_id", store)
    else
      let items := store.filter (fun r => r.user_id == u)
      if items.isEmpty then (.notFound "No subscriptions found for this user", store)
      else
        (.ok items.length u,
         store.filter (fun r => !(r.user_id == u)))

/-! Web push sender: target resolution, dispatch, and the failure and
    retirement tracking (web_push_sender/index.js). -/

/-- Query the active subscriptions (index.js, getActiveSubscriptions, lines
270-317): with a truthy target user, a query on that user filtered to status
active; otherwise a table scan filtered to status active. -/
def getActiveSubscriptions (store : SubStore) (targetUserId : Option String) :
    List SubRecord :=
  match targetUserId with
  | some uid =>
    if uid = "" then store.filter (fun r => r.status == "active")
    else store.filter (fun r => r.user_id == uid && r.status == "active")
  | none => store.filter (fun r => r.status == "active")

/-- Outcome of one webpush.sendNotification call, supplied by the transport:
a resolved status code, or a rejection carrying a message and possibly a
push-service status code. -/
inductive WebPushOutcome
  | ok (statusCode : Nat)
  | err (message : String) (statusCode : Option Nat)
deriving DecidableEq, Repr

/-- Entry pushed onto the successful list (index.js lines 344-349). -/
structure SuccessfulDelivery where
  user_id : String
  subscription_id : String
  statusCode : Nat
deriving DecidableEq, Repr

/-- Entry pushed onto the failed list (index.js lines 361-367). -/
structure FailedDelivery where
  user_id : String
  subscription_id : String
  error : String
  statusCode : Option Nat
deriving DecidableEq, Repr

/-- Fan out one payload to every subscription and split the outcomes into the
successful and failed lists (index.js, sendNotificationsToSubscriptions,
lines 322-374).  The source completes the sends concurrently via Promise.all
and pushes entries in completion order; the embedding serializes them in
list order, which the claims never distinguish.  A rejected send is caught
per target and recorded, never rethrown. -/
def sendNotificationsToSubscriptions (transport : SubRecord → WebPushOutcome) :
    List SubRecord → List SuccessfulDelivery × List FailedDelivery
  | [] => ([], [])
  | sub :: rest =>
    let tail := sendNotificationsToSubscriptions transport rest
    match transport sub with
    | .ok code =>
      (⟨sub.user_id, sub.subscription_id, code⟩ :: tail.1, tail.2)
    | .err msg code =>
      (tail.1, ⟨sub.user_id, sub.subscription_id, msg, code⟩ :: tail.2)

/-- Record the success timestamps (index.js, updateLastNotificationSent,
lines 379-400): a DynamoDB update on the composite key setting
last_notification_sent and updated_at to the current time.  No other
attribute is touched. -/
def updateLastNotificationSent (now : String) (store : SubStore)
    (userId subscriptionId : String) : SubStore :=
  store.map (fun r =>
    if r.keyIs userId subscriptionId then
      { r with last_notification_sent := some now, updated_at := now }
    else r)

/-- Deactivate a subscription (index.js, deactivateSubscription, lines
444-469): a DynamoDB update on the composite key setting status to inactive
and refreshing updated_at. -/
def deactivateSubscription (now : String) (store : SubStore)
    (userId subscriptionId : String) : SubStore :=
  store.map (fun r =>
    if r.keyIs userId subscriptionId then
      { r with status := "inactive", updated_at := now }
    else r)

/-- Tracking of one failed delivery (the per-entry promise body of index.js,
updateFailureCounts, lines 406-436): increment failure_count and refresh
updated_at on the composite key; then, when the push service reported 410
Gone, additionally deactivate the subscription.  The 410 check consults only
the status code, never the accumulated failure_count. -/
def trackFailedDelivery (now : String) (s : SubStore) (f : FailedDelivery) : SubStore :=
  let s1 := s.map (fun r =>
    if r.keyIs f.user_id f.subscription_id then
      { r with failure_count := r.failure_count + 1, updated_at := now }
    else r)
  if f.statusCode == some 410 then
    deactivateSubscription now s1 f.user_id f.subscription_id
  else s1

/-- Failure and retirement tracking (index.js, updateFailureCounts, lines
405-439): track every failed delivery of the dispatch. -/
def updateFailureCounts (now : String) (store : SubStore)
    (failed : List FailedDelivery) : SubStore :=
  failed.foldl (trackFailedDelivery now) store

/-- Request body of POST notifications on the web-push sender. -/
structure NotifyBody where
  title : Option String := none
  message : Option String := none
  user_id : Option String := none
deriving DecidableEq, Repr

/-- Response of the web-push sender, restricted to the JSON fields the
claims inspect. -/
structure WebSendResponse where
  statusCode : Nat
  message : String
  sent_count : Nat
  failed_count : Nat
  total_subscriptions : Option Nat
deriving DecidableEq, Repr

/-- The web-push dispatch pipeline (index.js, handleNotificationSend, lines
97-217): validate the message, resolve the active subscriptions for the
requested user or the whole table, short-circuit with a 200 zero-count
response when none exist, otherwise fan out, record success timestamps,
track failures, and answer 200 with the aggregate counts.  Per-target
failures never fail the request. -/
def handleNotificationSend (transport : SubRecord → WebPushOutcome)
    (now : String) (store : SubStore) (body : NotifyBody) :
    WebSendResponse × SubStore :=
  match body.message with
  | none =>
    ({ statusCode := 400, message := "Missing required field: message",
       sent_count := 0, failed_count := 0, total_subscriptions := none }, store)
  | some m =>
    if m = "" then
      ({ statusCode := 400, message := "Missing required field: message",
         sent_count := 0, failed_count := 0, total_subscriptions := none }, store)
    else
      let subs := getActiveSubscriptions store body.user_id
      if subs.isEmpty then
        ({ statusCode := 200, message := "No active subscriptions found",
           sent_count := 0, failed_count := 0, total_subscriptions := none }, store)
      else
        let results := sendNotificationsToSubscriptions transport subs
        let store1 := results.1.foldl
          (fun s d => updateLastNotificationSent now s d.user_id d.subscription_id) store
        let store2 :=
          if results.2.length > 0 then updateFailureCounts now store1 results.2
          else store1
        ({ statusCode := 200, message := "Notifications sent successfully",
           sent_count := results.1.length, failed_count := results.2.length,
           total_subscriptions := some subs.length }, store2)

/-! SNS side: device-token registry and dispatch (pulse-gen-functions,
    notificationService.ts, snsService.ts, notificationHandler.ts).  The
    device table is keyed on device_id alone, per its GetItem, DeleteItem
    and PutItem keys. -/

/-- One stored device-token record, the Item shape written by
storeDeviceToken. -/
structure DeviceToken where
  device_id : String
  user_id : String
  device_token : String
  endpoint_arn : String
  bundle_id : Option String := none
  platform : Option String := none
  created_at : Option String := none
  last_updated : Option String := none
  active : Option Bool := none
deriving DecidableEq, Repr

/-- The device-token table, modelled as a list of records keyed on
device_id. -/
abbrev DeviceTable := List DeviceToken

/-- JavaScript a or b on optional strings: the empty string is falsy, so it
falls through to the right operand. -/
def jsOr (a b : Option String) : Option String :=
  match a with
  | some s => if s = "" then b else some s
  | none => b

/-- JavaScript truthiness of an optional string. -/
def jsTruthy (a : Option String) : Bool :=
  match a with
  | some s => !(s == "")
  | none => false

/-- Point read by device id (notificationService.ts, getDeviceToken): a
GetItem on the device_id key, one or zero records. -/
def getDeviceToken (table : DeviceTable) (deviceId : String) : List DeviceToken :=
  (table.find? (fun d => d.device_id == deviceId)).toList

/-- Query by user via the user-id index (notificationService.ts,
getUserDeviceTokens). -/
def getUserDeviceTokens (table : DeviceTable) (userId : String) : List DeviceToken :=
  table.filter (fun d => d.user_id == userId)

/-- Full table scan (notificationService.ts, getAllDeviceTokens). -/
def getAllDeviceTokens (table : DeviceTable) : List DeviceToken :=
  table

/-- DynamoDB put on the device_id key: overwrite semantics
(notificationService.ts, storeDeviceToken). -/
def putDeviceRecord (table : DeviceTable) (item : DeviceToken) : DeviceTable :=
  item :: table.filter (fun d => !(d.device_id == item.device_id))

/-- A notification request on the SNS side; both snake and camel case field
spellings are accepted by the source. -/
structure NotificationRequest where
  message : Option String := none
  title : Option String := none
  user_id : Option String := none
  userId : Option String := none
  device_id : Option String := none
  deviceId : Option String := none
  device_token : Option String := none
  deviceToken : Option String := none
deriving DecidableEq, Repr

/-- Resolve a request to the device tokens to send to
(notificationService.ts, sendNotifications, lines 104-124): a directly
supplied token yields one synthetic entry bypassing the table; else a
device_id point read; else a user query; else the full scan. -/
def resolveDeviceTokens (table : DeviceTable) (req : NotificationRequest) :
    List DeviceToken :=
  let device_token := jsOr req.device_token req.deviceToken
  let device_id := jsOr req.device_id req.deviceId
  let user_id := jsOr req.user_id req.userId
  if jsTruthy device_token then
    [{ device_id := "direct-token", user_id := "direct",
       device_token := device_token.getD "", endpoint_arn := "" }]
  else if jsTruthy device_id then getDeviceToken table (device_id.getD "")
  else if jsTruthy user_id then getUserDeviceTokens table (user_id.getD "")
  else getAllDeviceTokens table

/-- Outcome of one SNS publish, supplied by the transport. -/
inductive SnsOutcome
  | ok (messageId : String)
  | err (message : String)
deriving DecidableEq, Repr

/-- Per-device delivery result (notificationService.ts,
NotificationResult). -/
structure NotificationResult where
  success : Bool
  device_id : Option String := none
  endpoint_arn : Option String := none
  device_token : Option String := none
  message_id : Option String := none
  error : Option String := none
deriving DecidableEq, Repr

/-- Send to a registered endpoint (notificationService.ts,
sendNotificationToDevice): wrap the SNS publish outcome. -/
def sendNotificationToDevice (sendEndpoint : String → SnsOutcome)
    (endpointArn : String) (deviceId : Option String) : NotificationResult :=
  match sendEndpoint endpointArn with
  | .ok mid =>
    { success := true, device_id := deviceId, endpoint_arn := some endpointArn,
      message_id := some mid }
  | .err e =>
    { success := false, device_id := deviceId, endpoint_arn := some endpointArn,
      error := some e }

/-- Send to a directly supplied token (notificationService.ts,
sendNotificationToDirectToken): the ephemeral create-send-teardown sequence
lives in the SNS service; its net outcome is the transport parameter. -/
def sendNotificationToDirectToken (sendDirect : String → SnsOutcome)
    (deviceToken : String) (deviceId : Option String) : NotificationResult :=
  match sendDirect deviceToken with
  | .ok mid =>
    { success := true, device_id := deviceId, device_token := some deviceToken,
      message_id := some mid }
  | .err e =>
    { success := false, device_id := deviceId, device_token := some deviceToken,
      error := some e }

/-- Dispatch to one resolved entry (notificationService.ts, sendNotifications,
lines 145-168): a nonempty endpoint_arn is a registered device; else a
nonempty device_token is the direct-token path; else the entry is malformed
and recorded as a failure. -/
def sendToTokenInfo (sendEndpoint sendDirect : String → SnsOutcome)
    (t : DeviceToken) : NotificationResult :=
  if !(t.endpoint_arn == "") then
    sendNotificationToDevice sendEndpoint t.endpoint_arn (some t.device_id)
  else if !(t.device_token == "") then
    sendNotificationToDirectToken sendDirect t.device_token (some t.device_id)
  else
    { success := false, error := some "Invalid token info format" }

/-- Aggregate returned by NotificationService.sendNotifications. -/
structure SendAggregate where
  total_devices : Nat
  successful : Nat
  failed : Nat
  results : List NotificationResult
deriving DecidableEq, Repr

/-- The SNS dispatch (notificationService.ts, sendNotifications, lines
89-179): resolve the targets, return the zero aggregate when none exist,
otherwise send to each in turn and count the successes and failures.  A
failed send is data in the aggregate, never a thrown error. -/
def NotificationService.sendNotifications
    (sendEndpoint sendDirect : String → SnsOutcome)
    (table : DeviceTable) (req : NotificationRequest) : SendAggregate :=
  let deviceTokens := resolveDeviceTokens table req
  if deviceTokens.isEmpty then
    { total_devices := 0, successful := 0, failed := 0, results := [] }
  else
    let results := deviceTokens.map (sendToTokenInfo sendEndpoint sendDirect)
    { total_devices := deviceTokens.length,
      successful := (results.filter (fun r => r.success)).length,
      failed := (results.filter (fun r => !r.success)).length,
      results := results }

/-- HTTP response of the notification handler, restricted to the fields the
claims inspect. -/
structure ApiResponse where
  statusCode : Nat
  message : Option String := none
  error : Option String := none
  total_devices : Option Nat := none
  successful : Option Nat := none
  failed : Option Nat := none
deriving DecidableEq, Repr

/-- The send sub-handler (notificationHandler.ts, handleSendNotification,
lines 295-401 of the inline version and 42-76 of the service version, both
identical here): resolve and dispatch; when the resolution is empty the
handler answers 404 No device tokens found; otherwise 200 with the
aggregate. -/
def handleSendNotification (sendEndpoint sendDirect : String → SnsOutcome)
    (table : DeviceTable) (req : NotificationRequest) : ApiResponse :=
  let result := NotificationService.sendNotifications sendEndpoint sendDirect table req
  if result.total_devices == 0 then
    { statusCode := 404, error := some "No device tokens found",
      message := some "No registered devices found for the specified criteria" }
  else
    { statusCode := 200, message := some "Notifications sent",
      total_devices := some result.total_devices,
      successful := some result.successful,
      failed := some result.failed }

/-! Endpoint lifecycle: snsService.ts createPlatformEndpoint and its
    duplicate-token conflict handling. -/

/-- Response shape of the SNS service endpoint operations (snsService.ts,
SNSPlatformEndpointResponse). -/
structure SNSPlatformEndpointResponse where
  success : Bool
  endpointArn : Option String := none
  error : Option String := none
deriving DecidableEq, Repr

/-- Outcome of the underlying CreatePlatformEndpoint call.  The source
distinguishes errors by whether the message contains InvalidParameter; the
invalidParameter constructor is exactly that case and carries, as ground
truth of the platform state, the existing endpoint handle the token is
already bound to (embedded in the real error message but never extracted by
the code). -/
inductive SnsCreateOutcome
  | created (endpointArn : String)
  | invalidParameter (existingArn : String) (message : String)
  | otherError (message : String)
deriving DecidableEq, Repr

/-- Duplicate-token conflict fallback (snsService.ts, handleExistingEndpoint,
lines 95-114): does not recover the existing handle; it fabricates a dummy
ARN from the region, account and custom user data so the registration can
complete. -/
def handleExistingEndpoint (region accountId : String)
    (customUserData : Option String) : SNSPlatformEndpointResponse :=
  { success := true,
    endpointArn := some ("arn:aws:sns:" ++ region ++ ":" ++ accountId ++
      ":app/APNS/dummy-endpoint-" ++ customUserData.getD "unknown"),
    error := none }

/-- Create a platform endpoint (snsService.ts, createPlatformEndpoint, lines
52-90): fail when the platform application ARN is unconfigured; return the
created handle on success; route InvalidParameter errors to the
duplicate-token fallback; surface any other error as a failure. -/
def createPlatformEndpoint (platformApplicationArn region accountId : String)
    (outcome : SnsCreateOutcome) (customUserData : Option String) :
    SNSPlatformEndpointResponse :=
  if platformApplicationArn = "" then
    { success := false, error := some "SNS Platform Application ARN not configured" }
  else
    match outcome with
    | .created arn => { success := true, endpointArn := some arn }
    | .invalidParameter _ _ => handleExistingEndpoint region accountId customUserData
    | .otherError msg => { success := false, error := some msg }

/-! Device registration and deletion (notificationService.ts). -/

/-- A device registration request; both field spellings accepted. -/
structure DeviceRegistrationRequest where
  device_token : Option String := none
  deviceToken : Option String := none
  user_id : Option String := none
  userId : Option String := none
  device_id : Option String := none
  deviceId : Option String := none
  bundle_id : Option String := none
  bundleId : Option String := none
  platform : Option String := none
  timestamp : Option String := none
deriving DecidableEq, Repr

/-- Result of registerDevice (notificationService.ts,
DeviceRegistrationResult). -/
structure DeviceRegistrationResult where
  success : Bool
  device_id : Option String := none
  endpoint_arn : Option String := none
  error : Option String := none
deriving DecidableEq, Repr

/-- Register a device token (notificationService.ts, registerDevice, lines
184-238): the record key is the supplied device_id, defaulting to a freshly
generated UUID (the generatedId parameter stands for that random draw) when
none is supplied; it is never derived from the token.  Requires a token;
creates or reuses an SNS endpoint via createPlatformEndpoint; stores the
record with a PutItem keyed on device_id. -/
def NotificationService.registerDevice
    (platformApplicationArn region accountId : String)
    (createOutcome : String → String → SnsCreateOutcome)
    (generatedId now : String)
    (table : DeviceTable) (req : DeviceRegistrationRequest) :
    DeviceRegistrationResult × DeviceTable :=
  let device_token := jsOr req.device_token req.deviceToken
  let user_id := (jsOr (jsOr req.user_id req.userId) (some "anonymous")).getD "anonymous"
  let device_id := (jsOr (jsOr req.device_id req.deviceId) (some generatedId)).getD generatedId
  let bundle_id := jsOr req.bundle_id req.bundleId
  let plat := (jsOr req.platform (some "ios")).getD "ios"
  let timestamp := (jsOr req.timestamp (some now)).getD now
  if !(jsTruthy device_token) then
    ({ success := false, error := some "device_token is required" }, table)
  else
    let tok := device_token.getD ""
    let epRes := createPlatformEndpoint platformApplicationArn region accountId
      (createOutcome tok device_id) (some device_id)
    if !epRes.success ∨ !(jsTruthy epRes.endpointArn) then
      ({ success := false,
         error := some ((jsOr epRes.error (some "Could not register device with SNS")).getD
           "Could not register device with SNS") }, table)
    else
      let arn := epRes.endpointArn.getD ""
      let item : DeviceToken :=
        { device_id := device_id
          user_id := user_id
          device_token := tok
          endpoint_arn := arn
          bundle_id := some ((jsOr bundle_id (some "unknown")).getD "unknown")
          platform := some plat
          created_at := some timestamp
          last_updated := some now
          active := some true }
      ({ success := true, device_id := some device_id, endpoint_arn := some arn },
       putDeviceRecord table item)

/-- Delete the device record by key (notificationService.ts,
deleteDeviceToken, lines 384-403): a DynamoDB DeleteItem on the device_id
key.  DynamoDB deletes succeed whether or not an item with that key exists,
so the call reports true for an absent device too; false arises only when
the table name is unset or the store call itself throws. -/
def NotificationService.deleteDeviceToken (tableName : String)
    (table : DeviceTable) (deviceId : String) : Bool × DeviceTable :=
  if tableName = "" then (false, table)
  else (true, table.filter (fun d => !(d.device_id == deviceId)))

/-- Result of deleteDevice. -/
structure DeleteDeviceResult where
  success : Bool
  error : Option String := none
deriving DecidableEq, Repr

/-- Delete a device (notificationService.ts, deleteDevice, lines 270-283):
acknowledge when the underlying delete reported true, else report the
not-found error text. -/
def NotificationService.deleteDevice (tableName : String)
    (table : DeviceTable) (device_id : String) : DeleteDeviceResult × DeviceTable :=
  let r := NotificationService.deleteDeviceToken tableName table device_id
  if !r.1 then
    ({ success := false, error := some "Could not find device to delete" }, r.2)
  else
    ({ success := true }, r.2)

/-- The delete sub-handler (notificationHandler.ts, handleDeleteDevice):
400 without a truthy device_id; 404 when the delete reported failure; 200
otherwise. -/
def handleDeleteDevice (tableName : String) (table : DeviceTable)
    (device_id : Option String) : ApiResponse × DeviceTable :=
  if !(jsTruthy device_id) then
    ({ statusCode := 400, error := some "Missing device_id",
       message := some "device_id is required" }, table)
  else
    let did := device_id.getD ""
    let r := NotificationService.deleteDevice tableName table did
    if !r.1.success then
      ({ statusCode := 404, error := some "Device not found",
         message := some "Could not find device to delete" }, r.2)
    else
      ({ statusCode := 200, message := some "Device deleted successfully" }, r.2)

/-! Theorems.  Helper predicates and lemmas about the failure tracker come
    first, then one theorem per claim with its witness or counterexample. -/

/-- A store has the subscription with the given composite key retired when
every record carrying that key is inactive. -/
def retiredAt (uid sid : String) (s : SubStore) : Prop :=
  ∀ r ∈ s, r.keyIs uid sid = true → r.status = "inactive"

/-- Mapping a record transformer that preserves the key fields and never
turns an inactive status back into anything else preserves retirement. -/
theorem retiredAt_map (uid sid : String) (s : SubStore) (g : SubRecord → SubRecord)
    (hkey : ∀ x, (g x).keyIs uid sid = x.keyIs uid sid)
    (hstat : ∀ x, x.status = "inactive" → (g x).status = "inactive")
    (H : retiredAt uid sid s) : retiredAt uid sid (s.map g) := by
  intro r hr hk
  obtain ⟨x, hx, hgx⟩ := List.mem_map.mp hr
  rw [← hgx] at hk ⊢
  rw [hkey] at hk
  exact hstat x (H x hx hk)

/-- The failure-count increment step of the tracker preserves retirement of
any key. -/
theorem retiredAt_incMap (uid sid a b now : String) (s : SubStore)
    (H : retiredAt uid sid s) :
    retiredAt uid sid (s.map (fun r =>
      if r.keyIs a b then
        { r with failure_count := r.failure_count + 1, updated_at := now }
      else r)) := by
  refine retiredAt_map uid sid s _ ?_ ?_ H
  · intro x
    by_cases h : x.keyIs a b = true
    · rw [if_pos h]
      rfl
    · rw [if_neg h]
  · intro x hx
    by_cases h : x.keyIs a b = true
    · rw [if_pos h]
      exact hx
    · rw [if_neg h]
      exact hx

/-- Deactivation preserves retirement of any key. -/
theorem retiredAt_deactMap (uid sid a b now : String) (s : SubStore)
    (H : retiredAt uid sid s) :
    retiredAt uid sid (deactivateSubscription now s a b) := by
  refine retiredAt_map uid sid s _ ?_ ?_ H
  · intro x
    by_cases h : x.keyIs a b = true
    · rw [if_pos h]
      rfl
    · rw [if_neg h]
  · intro x hx
    by_cases h : x.keyIs a b = true
    · rw [if_pos h]
    · rw [if_neg h]
      exact hx

/-- Tracking any failed delivery preserves retirement of any key. -/
theorem retiredAt_track (uid sid now : String) (s : SubStore)
    (f : FailedDelivery) (H : retiredAt uid sid s) :
    retiredAt uid sid (trackFailedDelivery now s f) := by
  unfold trackFailedDelivery
  by_cases h : (f.statusCode == some 410) = true
  · simp only [h, if_true]
    exact retiredAt_deactMap uid sid _ _ now _ (retiredAt_incMap uid sid _ _ now s H)
  · simp only [eq_false_of_ne_true h, if_false]
    exact retiredAt_incMap uid sid _ _ now s H

/-- Deactivating a key retires it: afterwards every record with that key is
inactive. -/
theorem retiredAt_deactivate (uid sid now : String) (s : SubStore) :
    retiredAt uid sid (deactivateSubscription now s uid sid) := by
  intro r hr hk
  obtain ⟨x, hx, hgx⟩ := List.mem_map.mp hr
  by_cases h : x.keyIs uid sid = true
  · rw [← hgx]
    simp [h]
  · rw [← hgx] at hk
    rw [show ((if x.keyIs uid sid then
        { x with status := "inactive", updated_at := now } else x) : SubRecord)
        = x by simp [h]] at hk
    exact absurd hk (by simp [h])

/-- Tracking a terminal (410) failed delivery retires its key. -/
theorem retiredAt_track_terminal (now : String) (s : SubStore)
    (f : FailedDelivery) (h410 : f.statusCode = some 410) :
    retiredAt f.user_id f.subscription_id (trackFailedDelivery now s f) := by
  unfold trackFailedDelivery
  simp only [h410, beq_self_eq_true, if_true]
  exact retiredAt_deactivate _ _ _ _

/-- Folding the tracker over further failed deliveries preserves
retirement. -/
theorem retiredAt_foldl (uid sid now : String) (fs : List FailedDelivery) :
    ∀ s : SubStore, retiredAt uid sid s →
      retiredAt uid sid (fs.foldl (trackFailedDelivery now) s) := by
  induction fs with
  | nil => intro s H; exact H
  | cons f t ih =>
    intro s H
    exact ih _ (retiredAt_track uid sid now s f H)

/-- Records with inactive status never appear in an active-subscriptions
resolution, whichever selector is used. -/
theorem inactive_not_in_getActive (s : SubStore) (sel : Option String)
    (r : SubRecord) (hst : r.status = "inactive") :
    r ∉ getActiveSubscriptions s sel := by
  intro hmem
  rcases sel with _ | uid
  · simp only [getActiveSubscriptions] at hmem
    have h2 := (List.mem_filter.mp hmem).2
    rw [hst] at h2
    exact absurd h2 (by decide)
  · simp only [getActiveSubscriptions] at hmem
    by_cases h : uid = ""
    · rw [if_pos h] at hmem
      have h2 := (List.mem_filter.mp hmem).2
      rw [hst] at h2
      exact absurd h2 (by decide)
    · rw [if_neg h] at hmem
      have h2 := (List.mem_filter.mp hmem).2
      rw [hst] at h2
      have h3 : ("inactive" == "active") = true := by
        exact (Bool.and_eq_true _ _ ▸ h2).2
      exact absurd h3 (by decide)

/-- C1: for every delivery outcome of a dispatch whose transport failure is
terminal (HTTP 410 Gone from the push service), the tracker sets the status
of every stored record carrying that outcome's composite key to inactive,
with no hypothesis on the current failure_count; afterwards neither the
listActive resolution for that owner nor the broadcast scan returns the
retired record. -/
theorem terminal_failure_retires
    (now : String) (store : SubStore) (failed : List FailedDelivery)
    (f : FailedDelivery) (hf : f ∈ failed) (h410 : f.statusCode = some 410)
    (r : SubRecord) (hmem : r ∈ updateFailureCounts now store failed)
    (hkey : r.keyIs f.user_id f.subscription_id = true) :
    r.status = "inactive" ∧
    r ∉ getActiveSubscriptions (updateFailureCounts now store failed) (some f.user_id) ∧
    r ∉ getActiveSubscriptions (updateFailureCounts now store failed) none := by
  obtain ⟨l1, l2, rfl⟩ := List.append_of_mem hf
  have hret : retiredAt f.user_id f.subscription_id
      (updateFailureCounts now store (l1 ++ f :: l2)) := by
    unfold updateFailureCounts
    rw [List.foldl_append, List.foldl_cons]
    exact retiredAt_foldl _ _ now l2 _
      (retiredAt_track_terminal now _ f h410)
  have hst : r.status = "inactive" := hret r hmem hkey
  exact ⟨hst, inactive_not_in_getActive _ _ r hst, inactive_not_in_getActive _ _ r hst⟩

/-- Concrete subscription fixtures used by the witnesses. -/
def exKeys : RawKeys := { p256dh := some "p256dh-key-aaaa", auth := some "auth-key-aa" }

/-- Concrete raw subscription fixture. -/
def exRawSub : RawSubscription :=
  { endpoint := some "https://push.example.org/send/abcdefghijklmnop", keys := some exKeys }

/-- Concrete stored record fixture with an accumulated failure count. -/
def exRecord : SubRecord :=
  { user_id := "u1", subscription_id := "abcdefghijklmnop", subscription := exRawSub,
    status := "active", created_at := "T0", updated_at := "T0", failure_count := 3,
    last_notification_sent := none }

/-- Concrete terminal failed-delivery outcome fixture. -/
def exFail410 : FailedDelivery :=
  { user_id := "u1", subscription_id := "abcdefghijklmnop", error := "Gone",
    statusCode := some 410 }

/-- The record exRecord after the tracker processed exFail410. -/
def exRetired : SubRecord :=
  { exRecord with failure_count := 4, updated_at := "T2", status := "inactive" }

/-- Witness for C1 at a concrete store and outcome. -/
theorem terminal_failure_retires_witness :
    exRetired.status = "inactive" ∧
    exRetired ∉ getActiveSubscriptions
      (updateFailureCounts "T2" [exRecord] [exFail410]) (some "u1") ∧
    exRetired ∉ getActiveSubscriptions
      (updateFailureCounts "T2" [exRecord] [exFail410]) none :=
  terminal_failure_retires "T2" [exRecord] [exFail410] exFail410 (by decide)
    rfl exRetired (by decide) (by decide)

/-- C5: a non-terminal failed delivery outcome increments the failure count
of the matching record by exactly one and refreshes updated_at, while the
status field is carried over unchanged; in particular an active subscription
stays active. -/
theorem nonterminal_failure_increments
    (now : String) (store : SubStore) (f : FailedDelivery)
    (hnt : f.statusCode ≠ some 410)
    (r : SubRecord) (hr : r ∈ store)
    (hkey : r.keyIs f.user_id f.subscription_id = true) :
    ({ r with failure_count := r.failure_count + 1, updated_at := now } : SubRecord)
        ∈ updateFailureCounts now store [f] ∧
    ({ r with failure_count := r.failure_count + 1, updated_at := now } : SubRecord).status
        = r.status ∧
    (r.status = "active" →
      ({ r with failure_count := r.failure_count + 1, updated_at := now } : SubRecord).status
        = "active") := by
  have hcond : (f.statusCode == some 410) = false := by
    simp [hnt]
  refine ⟨?_, rfl, fun h => h⟩
  show _ ∈ trackFailedDelivery now store f
  unfold trackFailedDelivery
  simp only [hcond, if_false, Bool.false_eq_true]
  have hmem := List.mem_map_of_mem (fun x : SubRecord =>
    if x.keyIs f.user_id f.subscription_id then
      { x with failure_count := x.failure_count + 1, updated_at := now }
    else x) hr
  have hmem2 : (if r.keyIs f.user_id f.subscription_id then
      { r with failure_count := r.failure_count + 1, updated_at := now }
    else r) ∈ List.map (fun x : SubRecord =>
      if x.keyIs f.user_id f.subscription_id then
        { x with failure_count := x.failure_count + 1, updated_at := now }
      else x) store := hmem
  rw [if_pos hkey] at hmem2
  exact hmem2

/-- Concrete non-terminal failed-delivery outcome fixture. -/
def exFail500 : FailedDelivery :=
  { user_id := "u1", subscription_id := "abcdefghijklmnop",
    error := "Internal push service error", statusCode := some 500 }

/-- Witness for C5 at a concrete store and outcome. -/
theorem nonterminal_failure_increments_witness :
    ({ exRecord with failure_count := exRecord.failure_count + 1, updated_at := "T3" } : SubRecord)
        ∈ updateFailureCounts "T3" [exRecord] [exFail500] ∧
    ({ exRecord with failure_count := exRecord.failure_count + 1, updated_at := "T3" } : SubRecord).status
        = exRecord.status ∧
    (exRecord.status = "active" →
      ({ exRecord with failure_count := exRecord.failure_count + 1, updated_at := "T3" } : SubRecord).status
        = "active") :=
  nonterminal_failure_increments "T3" [exRecord] exFail500 (by decide)
    exRecord (by decide) (by decide)

/-- Concrete always-successful web-push transport fixture. -/
def exTransportOk : SubRecord → WebPushOutcome := fun _ => .ok 201

/-- Concrete notification request body fixture targeting owner u1. -/
def exNotifyBody : NotifyBody :=
  { title := some "Hi", message := some "hello", user_id := some "u1" }

/-- Counterexample for C2: run a full dispatch in which the only target (a
stored record with failure_count 3) is delivered successfully.  The store
afterwards holds the record with refreshed last_notification_sent and
updated_at but with failure_count still 3: the success path never resets the
failure count to 0 as the claim asserts. -/
theorem success_does_not_reset_failure_count :
    (handleNotificationSend exTransportOk "T1" [exRecord] exNotifyBody).2
      = [{ exRecord with last_notification_sent := some "T1", updated_at := "T1" }] ∧
    ¬ (∀ r ∈ (handleNotificationSend exTransportOk "T1" [exRecord] exNotifyBody).2,
        r.failure_count = 0) := by
  constructor
  · decide
  · decide

/-- C2 amended: a successful delivery to a stored subscription updates the
record's last_notification_sent and updated_at in the store, but leaves
failure_count (and status) unchanged; no reset to 0 happens on success. -/
theorem success_updates_timestamps_only
    (now : String) (store : SubStore) (uid sid : String)
    (r : SubRecord) (hr : r ∈ store) (hkey : r.keyIs uid sid = true) :
    ({ r with last_notification_sent := some now, updated_at := now } : SubRecord)
        ∈ updateLastNotificationSent now store uid sid ∧
    ({ r with last_notification_sent := some now, updated_at := now } : SubRecord).failure_count
        = r.failure_count ∧
    ({ r with last_notification_sent := some now, updated_at := now } : SubRecord).status
        = r.status := by
  refine ⟨?_, rfl, rfl⟩
  unfold updateLastNotificationSent
  have hmem := List.mem_map_of_mem (fun x : SubRecord =>
    if x.keyIs uid sid then
      { x with last_notification_sent := some now, updated_at := now }
    else x) hr
  have hmem2 : (if r.keyIs uid sid then
      ({ r with last_notification_sent := some now, updated_at := now } : SubRecord)
    else r) ∈ List.map (fun x : SubRecord =>
      if x.keyIs uid sid then
        { x with last_notification_sent := some now, updated_at := now }
      else x) store := hmem
  rw [if_pos hkey] at hmem2
  exact hmem2

/-- Witness for the amended C2 at a concrete store. -/
theorem success_updates_timestamps_only_witness :
    ({ exRecord with last_notification_sent := some "T1", updated_at := "T1" } : SubRecord)
        ∈ updateLastNotificationSent "T1" [exRecord] "u1" "abcdefghijklmnop" ∧
    ({ exRecord with last_notification_sent := some "T1", updated_at := "T1" } : SubRecord).failure_count
        = exRecord.failure_count ∧
    ({ exRecord with last_notification_sent := some "T1", updated_at := "T1" } : SubRecord).status
        = exRecord.status :=
  success_updates_timestamps_only "T1" [exRecord] "u1" "abcdefghijklmnop"
    exRecord (by decide) (by decide)

/-- Concrete always-successful SNS publish fixture. -/
def exSnsOk : String → SnsOutcome := fun _ => .ok "msg-1"

/-- Concrete SNS send request fixture selecting owner u1. -/
def exSendReqU1 : NotificationRequest :=
  { message := some "hello", title := some "t", user_id := some "u1" }

/-- Counterexample for C3: a send request whose selector (owner u1) resolves
to zero targets is answered by the SNS send handler with a 404 error
response, not a success result with zero counts. -/
theorem empty_targets_send_handler_404 :
    handleSendNotification exSnsOk exSnsOk [] exSendReqU1
      = { statusCode := 404, error := some "No device tokens found",
          message := some "No registered devices found for the specified criteria",
          total_devices := none, successful := none, failed := none } ∧
    ¬ ((handleSendNotification exSnsOk exSnsOk [] exSendReqU1).statusCode = 200) := by
  constructor
  · decide
  · decide

/-- C3 amended: with zero resolved targets the web-push dispatch answers 200
with sent_count 0 and failed_count 0 and leaves the store untouched, and the
SNS notification service returns the zero aggregate without error; but the
SNS HTTP send handler maps that empty resolution to a 404 error response. -/
theorem empty_targets_behavior
    (transport : SubRecord → WebPushOutcome) (now : String) (store : SubStore)
    (body : NotifyBody) (m : String)
    (hm : body.message = some m) (hm0 : m ≠ "")
    (hempty : getActiveSubscriptions store body.user_id = [])
    (sendE sendD : String → SnsOutcome) (table : DeviceTable)
    (req : NotificationRequest)
    (hres : resolveDeviceTokens table req = []) :
    handleNotificationSend transport now store body
      = ({ statusCode := 200, message := "No active subscriptions found",
           sent_count := 0, failed_count := 0, total_subscriptions := none }, store) ∧
    NotificationService.sendNotifications sendE sendD table req
      = { total_devices := 0, successful := 0, failed := 0, results := [] } ∧
    (handleSendNotification sendE sendD table req).statusCode = 404 := by
  have h2 : NotificationService.sendNotifications sendE sendD table req
      = { total_devices := 0, successful := 0, failed := 0, results := [] } := by
    unfold NotificationService.sendNotifications
    rw [hres]
    rfl
  refine ⟨?_, h2, ?_⟩
  · unfold handleNotificationSend
    rw [hm]
    dsimp only
    rw [if_neg hm0, hempty]
    rfl
  · unfold handleSendNotification
    rw [h2]
    rfl

/-- Witness for the amended C3 at concrete empty stores. -/
theorem empty_targets_behavior_witness :
    handleNotificationSend exTransportOk "T1" [] exNotifyBody
      = ({ statusCode := 200, message := "No active subscriptions found",
           sent_count := 0, failed_count := 0, total_subscriptions := none }, []) ∧
    NotificationService.sendNotifications exSnsOk exSnsOk [] exSendReqU1
      = { total_devices := 0, successful := 0, failed := 0, results := [] } ∧
    (handleSendNotification exSnsOk exSnsOk [] exSendReqU1).statusCode = 404 :=
  empty_targets_behavior exTransportOk "T1" [] exNotifyBody "hello"
    rfl (by decide) (by decide) exSnsOk exSnsOk [] exSendReqU1 (by decide)

/-- Whether the transport delivers to a given subscription. -/
def webOk (transport : SubRecord → WebPushOutcome) (s : SubRecord) : Bool :=
  match transport s with
  | .ok _ => true
  | .err _ _ => false

/-- The successful-list entry a target contributes, when it succeeds. -/
def okEntry (transport : SubRecord → WebPushOutcome) (s : SubRecord) :
    Option SuccessfulDelivery :=
  match transport s with
  | .ok c => some ⟨s.user_id, s.subscription_id, c⟩
  | .err _ _ => none

/-- The failed-list entry a target contributes, when it fails. -/
def errEntry (transport : SubRecord → WebPushOutcome) (s : SubRecord) :
    Option FailedDelivery :=
  match transport s with
  | .ok _ => none
  | .err msg c => some ⟨s.user_id, s.subscription_id, msg, c⟩

/-- The fan-out partitions the targets: the successful list collects exactly
the ok outcomes in target order and the failed list exactly the err
outcomes, so every target contributes to exactly one of the two lists. -/
theorem send_partition (t : SubRecord → WebPushOutcome) (l : List SubRecord) :
    (sendNotificationsToSubscriptions t l).1 = l.filterMap (okEntry t) ∧
    (sendNotificationsToSubscriptions t l).2 = l.filterMap (errEntry t) := by
  induction l with
  | nil => exact ⟨rfl, rfl⟩
  | cons s rest ih =>
    cases h : t s with
    | ok c =>
      constructor
      · simp only [sendNotificationsToSubscriptions, h, List.filterMap_cons, okEntry]
        rw [ih.1]
      · simp only [sendNotificationsToSubscriptions, h, List.filterMap_cons, errEntry]
        exact ih.2
    | err msg c =>
      constructor
      · simp only [sendNotificationsToSubscriptions, h, List.filterMap_cons, okEntry]
        exact ih.1
      · simp only [sendNotificationsToSubscriptions, h, List.filterMap_cons, errEntry]
        rw [ih.2]

/-- Length of the collected ok entries is the count of delivered targets. -/
theorem length_filterMap_okEntry (t : SubRecord → WebPushOutcome) (l : List SubRecord) :
    (l.filterMap (okEntry t)).length = l.countP (webOk t) := by
  induction l with
  | nil => rfl
  | cons s rest ih =>
    cases h : t s with
    | ok c =>
      simp [List.filterMap_cons, okEntry, h, List.countP_cons, webOk, ih]
    | err msg c =>
      simp [List.filterMap_cons, okEntry, h, List.countP_cons, webOk, ih]

/-- Length of the collected err entries is the count of undelivered
targets. -/
theorem length_filterMap_errEntry (t : SubRecord → WebPushOutcome) (l : List SubRecord) :
    (l.filterMap (errEntry t)).length = l.countP (fun s => !(webOk t s)) := by
  induction l with
  | nil => rfl
  | cons s rest ih =>
    cases h : t s with
    | ok c =>
      simp [List.filterMap_cons, errEntry, h, List.countP_cons, webOk, ih]
    | err msg c =>
      simp [List.filterMap_cons, errEntry, h, List.countP_cons, webOk, ih]

/-- Counting a predicate and its complement covers the whole list. -/
theorem countP_add_countP_not {α} (p : α → Bool) (l : List α) :
    l.countP p + l.countP (fun a => !(p a)) = l.length := by
  induction l with
  | nil => rfl
  | cons a tl ih =>
    cases h : p a <;> simp [List.countP_cons, h] <;> omega

/-- Filtering a predicate and its complement covers the whole list. -/
theorem length_filter_add_length_filter_not {α} (p : α → Bool) (l : List α) :
    (l.filter p).length + (l.filter (fun a => !(p a))).length = l.length := by
  induction l with
  | nil => rfl
  | cons a tl ih =>
    cases h : p a <;> simp [List.filter_cons, h] <;> omega

/-- C4: in a dispatch to N resolved targets of which M deliveries succeed
and N minus M fail, with both positive, the fan-out yields a successful list
of length M and a failed list of length N minus M, each resolved target
contributes to exactly one of the two lists (the partition equalities), and
the dispatch request itself answers 200 with the aggregate counts, so no
per-target failure fails the whole dispatch. -/
theorem mixed_dispatch_aggregate
    (transport : SubRecord → WebPushOutcome) (now : String) (store : SubStore)
    (body : NotifyBody) (m : String) (subs : List SubRecord) (M N : Nat)
    (hm : body.message = some m) (hm0 : m ≠ "")
    (hsubs : getActiveSubscriptions store body.user_id = subs)
    (hN : subs.length = N)
    (hM : subs.countP (webOk transport) = M)
    (hM0 : 0 < M) (hMN : M < N) :
    (sendNotificationsToSubscriptions transport subs).1.length = M ∧
    (sendNotificationsToSubscriptions transport subs).2.length = N - M ∧
    (sendNotificationsToSubscriptions transport subs).1
      = subs.filterMap (okEntry transport) ∧
    (sendNotificationsToSubscriptions transport subs).2
      = subs.filterMap (errEntry transport) ∧
    (handleNotificationSend transport now store body).1
      = { statusCode := 200, message := "Notifications sent successfully",
          sent_count := M, failed_count := N - M, total_subscriptions := some N } := by
  have hpart := send_partition transport subs
  have hlen1 : (sendNotificationsToSubscriptions transport subs).1.length = M := by
    rw [hpart.1, length_filterMap_okEntry, hM]
  have hlenc : subs.countP (fun s => !(webOk transport s)) = N - M := by
    have := countP_add_countP_not (webOk transport) subs
    omega
  have hlen2 : (sendNotificationsToSubscriptions transport subs).2.length = N - M := by
    rw [hpart.2, length_filterMap_errEntry, hlenc]
  have hne : subs.isEmpty = false := by
    cases subs with
    | nil =>
      exfalso
      simp at hN
      omega
    | cons a tl => rfl
  refine ⟨hlen1, hlen2, hpart.1, hpart.2, ?_⟩
  unfold handleNotificationSend
  rw [hm]
  dsimp only
  rw [if_neg hm0, hsubs]
  simp only [hne, Bool.false_eq_true, if_false]
  rw [hlen1, hlen2, hN]

/-- Second concrete raw subscription fixture. -/
def exRawSubB : RawSubscription :=
  { endpoint := some "https://push.example.org/send/qrstuvwxyz123456", keys := some exKeys }

/-- Second concrete stored record fixture for the same owner. -/
def exRecordB : SubRecord :=
  { user_id := "u1", subscription_id := "qrstuvwxyz123456", subscription := exRawSubB,
    status := "active", created_at := "T0", updated_at := "T0", failure_count := 0,
    last_notification_sent := none }

/-- Concrete mixed transport fixture: delivers to the first record, reports
410 Gone for every other target. -/
def exTransportMixed : SubRecord → WebPushOutcome :=
  fun s =>
    if s.subscription_id == "abcdefghijklmnop" then .ok 201
    else .err "Gone" (some 410)

/-- Witness for C4 at a concrete two-target dispatch with one success and
one failure. -/
theorem mixed_dispatch_aggregate_witness :
    (sendNotificationsToSubscriptions exTransportMixed [exRecord, exRecordB]).1.length = 1 ∧
    (sendNotificationsToSubscriptions exTransportMixed [exRecord, exRecordB]).2.length = 2 - 1 ∧
    (sendNotificationsToSubscriptions exTransportMixed [exRecord, exRecordB]).1
      = [exRecord, exRecordB].filterMap (okEntry exTransportMixed) ∧
    (sendNotificationsToSubscriptions exTransportMixed [exRecord, exRecordB]).2
      = [exRecord, exRecordB].filterMap (errEntry exTransportMixed) ∧
    (handleNotificationSend exTransportMixed "T1" [exRecord, exRecordB] exNotifyBody).1
      = { statusCode := 200, message := "Notifications sent successfully",
          sent_count := 1, failed_count := 2 - 1, total_subscriptions := some 2 } :=
  mixed_dispatch_aggregate exTransportMixed "T1" [exRecord, exRecordB] exNotifyBody
    "hello" [exRecord, exRecordB] 1 2 rfl (by decide) (by decide) (by decide)
    (by decide) (by decide) (by decide)

/-- Filtering a complement-filtered list by the predicate yields nothing. -/
theorem filter_filter_not_nil {α} (p : α → Bool) (l : List α) :
    (l.filter (fun a => !(p a))).filter p = [] := by
  induction l with
  | nil => rfl
  | cons a tl ih =>
    cases h : p a <;> simp [List.filter_cons, h, ih]

/-- After a put on the subscriptions table, exactly one record carries the
key of the item. -/
theorem countKey_putRecord (store : SubStore) (item : SubRecord) :
    ((putRecord store item).filter
      (fun r => r.keyIs item.user_id item.subscription_id)).length = 1 := by
  unfold putRecord
  rw [List.filter_cons, if_pos (by simp [SubRecord.keyIs]), filter_filter_not_nil]
  rfl

/-- After a put on the device table, exactly one record carries the item's
device id. -/
theorem countKey_putDeviceRecord (table : DeviceTable) (item : DeviceToken) :
    ((putDeviceRecord table item).filter
      (fun d => d.device_id == item.device_id)).length = 1 := by
  unfold putDeviceRecord
  rw [List.filter_cons, if_pos (by simp), filter_filter_not_nil]
  rfl

/-- A fully populated subscribe body for owner u and endpoint ep with both
encryption keys. -/
def mkSubscribeBody (u ep p a : String) : SubscribeBody :=
  { user_id := some u,
    subscription :=
      some { endpoint := some ep, keys := some { p256dh := some p, auth := some a } } }

/-- Reduction of handleSubscription on a fully valid body: it derives the
subscription id from the endpoint and overwrites the keyed record with a
fresh active one. -/
theorem handleSubscription_valid (hash16 : String → String) (now : String)
    (store : SubStore) (u ep p a : String)
    (hu : u ≠ "") (hep : ep ≠ "") (hp : p ≠ "") (ha : a ≠ "") :
    handleSubscription hash16 now store (mkSubscribeBody u ep p a)
      = (.ok (generateSubscriptionId hash16 ep) u,
         putRecord store
           { user_id := u, subscription_id := generateSubscriptionId hash16 ep,
             subscription :=
               { endpoint := some ep, keys := some { p256dh := some p, auth := some a } },
             status := "active", created_at := now, updated_at := now,
             failure_count := 0, last_notification_sent := none }) := by
  unfold handleSubscription mkSubscribeBody
  dsimp only
  rw [if_neg hu, if_neg hep, if_neg (fun h => h.elim hp ha)]

/-- Reduction of registerDevice on a request carrying a token and an explicit
device_id, with a successfully created endpoint: the stored record is keyed
on the supplied device_id, never on the token. -/
theorem registerDevice_stores_by_device_id
    (appArn region acct tok did arn g n : String)
    (co : String → String → SnsCreateOutcome)
    (table : DeviceTable) (req : DeviceRegistrationRequest)
    (happ : appArn ≠ "") (htok : req.device_token = some tok) (htok0 : tok ≠ "")
    (hdid : req.device_id = some did) (hdid0 : did ≠ "")
    (hco : co tok did = .created arn) (harn : arn ≠ "") :
    NotificationService.registerDevice appArn region acct co g n table req
      = ({ success := true, device_id := some did, endpoint_arn := some arn },
         putDeviceRecord table
           { device_id := did,
             user_id := (jsOr (jsOr req.user_id req.userId) (some "anonymous")).getD "anonymous",
             device_token := tok,
             endpoint_arn := arn,
             bundle_id := some ((jsOr (jsOr req.bundle_id req.bundleId) (some "unknown")).getD "unknown"),
             platform := some ((jsOr req.platform (some "ios")).getD "ios"),
             created_at := some ((jsOr req.timestamp (some n)).getD n),
             last_updated := some n,
             active := some true }) := by
  have hdt : jsOr req.device_token req.deviceToken = some tok := by
    rw [htok]
    simp [jsOr, htok0]
  have hdev : jsOr (jsOr req.device_id req.deviceId) (some g) = some did := by
    rw [hdid]
    simp [jsOr, hdid0]
  have hepr : createPlatformEndpoint appArn region acct (co tok did) (some did)
      = { success := true, endpointArn := some arn, error := none } := by
    unfold createPlatformEndpoint
    rw [if_neg happ, hco]
  unfold NotificationService.registerDevice
  rw [hdt, hdev]
  have htrue : jsTruthy (some tok) = true := by
    unfold jsTruthy
    simp [htok0]
  simp only [Option.getD_some, htrue, Bool.not_true, Bool.false_eq_true, if_false, hepr]
  have harntrue : jsTruthy (some arn) = true := by
    unfold jsTruthy
    simp [harn]
  simp only [harntrue, Bool.not_true, Bool.false_eq_true, or_self, if_false,
    Option.getD_some]

/-- Concrete always-successful endpoint creation fixture. -/
def exCreateOk : String → String → SnsCreateOutcome :=
  fun _ did => .created ("arn:endpoint-" ++ did)

/-- Concrete registration request fixture carrying a token but no device_id,
as the iOS client may omit it. -/
def exRegReq : DeviceRegistrationRequest :=
  { device_token := some "token-one", user_id := some "owner-1" }

/-- First registration of the token, with UUID draw uuid-1. -/
def exRegStep1 : DeviceRegistrationResult × DeviceTable :=
  NotificationService.registerDevice "arn:app" "us-east-1" "123456789012"
    exCreateOk "uuid-1" "T1" [] exRegReq

/-- Second registration of the same token under the same owner, with UUID
draw uuid-2. -/
def exRegStep2 : DeviceRegistrationResult × DeviceTable :=
  NotificationService.registerDevice "arn:app" "us-east-1" "123456789012"
    exCreateOk "uuid-2" "T2" exRegStep1.2 exRegReq

/-- Counterexample for C6: registering the same physical token twice under
the same owner, without a caller-supplied device_id, succeeds both times yet
leaves two stored records for that owner and token, because the record key
is the freshly generated UUID and not derived from the endpoint identity. -/
theorem duplicate_token_two_records :
    exRegStep1.1.success = true ∧
    exRegStep2.1.success = true ∧
    exRegStep2.2.length = 2 ∧
    exRegStep2.2.all
      (fun d => d.user_id == "owner-1" && d.device_token == "token-one") = true := by
  refine ⟨by decide, by decide, by decide, by decide⟩

/-- C6 amended: web-push registration is idempotent because the subscription
id is derived deterministically from the endpoint, so registering the same
endpoint twice under the same owner leaves exactly one record with that key;
device-token registration instead keys the record on the supplied device_id
(or a fresh random UUID when omitted), so it converges to one record exactly
when the same device_id is supplied. -/
theorem register_same_endpoint_idempotent
    (hash16 : String → String) (now1 now2 : String) (store : SubStore)
    (u ep p a : String) (hu : u ≠ "") (hep : ep ≠ "") (hp : p ≠ "") (ha : a ≠ "")
    (appArn region acct tok did arn g n : String)
    (co : String → String → SnsCreateOutcome) (table : DeviceTable)
    (req : DeviceRegistrationRequest)
    (happ : appArn ≠ "") (htok : req.device_token = some tok) (htok0 : tok ≠ "")
    (hdid : req.device_id = some did) (hdid0 : did ≠ "")
    (hco : co tok did = .created arn) (harn : arn ≠ "") :
    ((handleSubscription hash16 now2
        (handleSubscription hash16 now1 store (mkSubscribeBody u ep p a)).2
        (mkSubscribeBody u ep p a)).2.filter
      (fun r => r.keyIs u (generateSubscriptionId hash16 ep))).length = 1 ∧
    ((NotificationService.registerDevice appArn region acct co g n table req).2.filter
      (fun d => d.device_id == did)).length = 1 := by
  constructor
  · rw [handleSubscription_valid hash16 now1 store u ep p a hu hep hp ha]
    rw [handleSubscription_valid hash16 now2 _ u ep p a hu hep hp ha]
    exact countKey_putRecord _ _
  · rw [registerDevice_stores_by_device_id appArn region acct tok did arn g n co
      table req happ htok htok0 hdid hdid0 hco harn]
    exact countKey_putDeviceRecord _ _

/-- Concrete registration request fixture with an explicit device_id. -/
def exRegReqDid : DeviceRegistrationRequest :=
  { device_token := some "token-one", user_id := some "owner-1",
    device_id := some "device-7" }

/-- Witness for the amended C6 at concrete registrations. -/
theorem register_same_endpoint_idempotent_witness :
    ((handleSubscription (fun _ => "hashed-id-0123") "T2"
        (handleSubscription (fun _ => "hashed-id-0123") "T1" []
          (mkSubscribeBody "u1" "https://push.example.org/send/abcdefghijklmnop" "pk" "ak")).2
        (mkSubscribeBody "u1" "https://push.example.org/send/abcdefghijklmnop" "pk" "ak")).2.filter
      (fun r => r.keyIs "u1" (generateSubscriptionId (fun _ => "hashed-id-0123")
        "https://push.example.org/send/abcdefghijklmnop"))).length = 1 ∧
    ((NotificationService.registerDevice "arn:app" "us-east-1" "123456789012"
        exCreateOk "uuid-1" "T1" [] exRegReqDid).2.filter
      (fun d => d.device_id == "device-7")).length = 1 :=
  register_same_endpoint_idempotent (fun _ => "hashed-id-0123") "T1" "T2" []
    "u1" "https://push.example.org/send/abcdefghijklmnop" "pk" "ak"
    (by decide) (by decide) (by decide) (by decide)
    "arn:app" "us-east-1" "123456789012" "token-one" "device-7"
    "arn:endpoint-device-7" "uuid-1" "T1" exCreateOk [] exRegReqDid
    (by decide) rfl (by decide) rfl (by decide) rfl (by decide)

/-- Concrete duplicate-token conflict outcome fixture: the platform rejects
the create call because the token is already bound to a real existing
endpoint. -/
def exConflict : SnsCreateOutcome :=
  .invalidParameter "arn:aws:sns:us-east-1:111122223333:endpoint/APNS/pulse-mobile/real-endpoint"
    "InvalidParameter: Token Reason: Endpoint already exists with the same Token"

/-- Counterexample for C7: on a duplicate-token conflict the endpoint
manager reports success, but the handle it returns is a fabricated dummy
ARN, not the existing handle the token is bound to. -/
theorem conflict_yields_dummy_not_existing :
    (createPlatformEndpoint "arn:app" "us-east-1" "123456789012" exConflict
      (some "device-7")).success = true ∧
    (createPlatformEndpoint "arn:app" "us-east-1" "123456789012" exConflict
      (some "device-7")).endpointArn
      = some "arn:aws:sns:us-east-1:123456789012:app/APNS/dummy-endpoint-device-7" ∧
    ¬ ((createPlatformEndpoint "arn:app" "us-east-1" "123456789012" exConflict
      (some "device-7")).endpointArn
      = some "arn:aws:sns:us-east-1:111122223333:endpoint/APNS/pulse-mobile/real-endpoint") := by
  refine ⟨by decide, by decide, by decide⟩

/-- C7 amended: a duplicate-token parameter conflict never fails the
registration, but instead of resolving to the existing handle the manager
fabricates a placeholder dummy ARN from the region, account and custom user
data and reports success with it. -/
theorem duplicate_conflict_nonfatal
    (appArn region acct existing msg : String) (cud : Option String)
    (happ : appArn ≠ "") :
    createPlatformEndpoint appArn region acct (.invalidParameter existing msg) cud
      = { success := true,
          endpointArn := some ("arn:aws:sns:" ++ region ++ ":" ++ acct ++
            ":app/APNS/dummy-endpoint-" ++ cud.getD "unknown"),
          error := none } := by
  unfold createPlatformEndpoint handleExistingEndpoint
  rw [if_neg happ]

/-- Witness for the amended C7 at a concrete conflict. -/
theorem duplicate_conflict_nonfatal_witness :
    createPlatformEndpoint "arn:app" "us-east-1" "123456789012" exConflict (some "device-7")
      = { success := true,
          endpointArn := some ("arn:aws:sns:" ++ "us-east-1" ++ ":" ++ "123456789012" ++
            ":app/APNS/dummy-endpoint-" ++ (some "device-7").getD "unknown"),
          error := none } :=
  duplicate_conflict_nonfatal "arn:app" "us-east-1" "123456789012"
    "arn:aws:sns:us-east-1:111122223333:endpoint/APNS/pulse-mobile/real-endpoint"
    "InvalidParameter: Token Reason: Endpoint already exists with the same Token"
    (some "device-7") (by decide)

/-- A nonempty list has isEmpty false. -/
theorem isEmpty_false_of_length_pos {α} (l : List α) (h : 0 < l.length) :
    l.isEmpty = false := by
  cases l with
  | nil => simp at h
  | cons a t => rfl

/-- A length-zero list has isEmpty true. -/
theorem isEmpty_true_of_length_zero {α} (l : List α) (h : l.length = 0) :
    l.isEmpty = true := by
  cases l with
  | nil => rfl
  | cons a t => simp at h

/-- C8: deregistering an owner with n stored records (n positive) deletes
every record of that owner, keeps everyone else, and reports n as the count
removed; deregistering an owner with zero records answers NotFound and
deletes nothing.  The removed-record count equals the drop in table size. -/
theorem deregister_all_semantics
    (store : SubStore) (u : String) (hu : u ≠ "") (n : Nat)
    (hn : (store.filter (fun r => r.user_id == u)).length = n) :
    (0 < n →
      handleUnsubscription store (some u)
        = (.ok n u, store.filter (fun r => !(r.user_id == u)))) ∧
    (n = 0 →
      handleUnsubscription store (some u)
        = (.notFound "No subscriptions found for this user", store)) ∧
    (store.filter (fun r => !(r.user_id == u))).length = store.length - n := by
  refine ⟨?_, ?_, ?_⟩
  · intro hpos
    have hlen : 0 < (store.filter (fun r => r.user_id == u)).length := by
      rw [hn]
      exact hpos
    unfold handleUnsubscription
    dsimp only
    rw [if_neg hu]
    simp only [isEmpty_false_of_length_pos _ hlen, Bool.false_eq_true, if_false]
    rw [hn]
  · intro hz
    have hlen : (store.filter (fun r => r.user_id == u)).length = 0 := by
      rw [hn]
      exact hz
    unfold handleUnsubscription
    dsimp only
    rw [if_neg hu]
    simp only [isEmpty_true_of_length_zero _ hlen, if_true]
  · have := length_filter_add_length_filter_not (fun r => r.user_id == u) store
    omega

/-- Concrete record fixture owned by a second user. -/
def exRecordU2 : SubRecord :=
  { user_id := "u2", subscription_id := "zzzzzzzzzz9999", subscription := exRawSub,
    status := "active", created_at := "T0", updated_at := "T0", failure_count := 0,
    last_notification_sent := none }

/-- Witness for C8: deleting owner u1 from a three-record store removes both
u1 records and reports 2; deleting u1 again from the remaining store answers
NotFound. -/
theorem deregister_all_semantics_witness :
    handleUnsubscription [exRecord, exRecordB, exRecordU2] (some "u1")
      = (.ok 2 "u1", [exRecordU2]) ∧
    handleUnsubscription [exRecordU2] (some "u1")
      = (.notFound "No subscriptions found for this user", [exRecordU2]) := by
  constructor
  · have h := (deregister_all_semantics [exRecord, exRecordB, exRecordU2] "u1"
      (by decide) 2 (by decide)).1 (by decide)
    rw [h]
    decide
  · exact ((deregister_all_semantics [exRecordU2] "u1" (by decide) 0 (by decide)).2.1) rfl

/-- Counterexample for C9: deleting a device identifier with no stored
record still acknowledges success (DynamoDB deletes are no-ops on absent
keys), and the HTTP handler answers 200, not NotFound. -/
theorem delete_absent_acknowledges :
    NotificationService.deleteDevice "pulse-device-tokens" [] "device-9"
      = ({ success := true, error := none }, []) ∧
    (handleDeleteDevice "pulse-device-tokens" [] (some "device-9")).1.statusCode = 200 := by
  refine ⟨by decide, by decide⟩

/-- C9 amended: deleteDevice removes the matching record when one exists and
acknowledges success whether or not a record with the identifier is stored;
the failure path mapped to NotFound (404) arises only when the underlying
store delete itself fails, as when the table name is unset, never from mere
absence of the record. -/
theorem delete_device_semantics
    (tableName : String) (table : DeviceTable) (did : String) :
    (tableName ≠ "" →
      NotificationService.deleteDevice tableName table did
        = ({ success := true, error := none },
           table.filter (fun d => !(d.device_id == did)))) ∧
    (tableName = "" →
      NotificationService.deleteDevice tableName table did
        = ({ success := false, error := some "Could not find device to delete" },
           table)) := by
  constructor
  · intro h
    unfold NotificationService.deleteDevice NotificationService.deleteDeviceToken
    rw [if_neg h]
    rfl
  · intro h
    unfold NotificationService.deleteDevice NotificationService.deleteDeviceToken
    rw [if_pos h]
    rfl

/-- Concrete stored device-token record fixture. -/
def exDevice : DeviceToken :=
  { device_id := "device-7", user_id := "owner-1", device_token := "token-one",
    endpoint_arn := "arn:endpoint-device-7" }

/-- Witness for the amended C9: deleting an existing record removes it and
acknowledges; with the table name unset the failure path is taken. -/
theorem delete_device_semantics_witness :
    NotificationService.deleteDevice "pulse-device-tokens" [exDevice] "device-7"
      = ({ success := true, error := none }, []) ∧
    NotificationService.deleteDevice "" [exDevice] "device-7"
      = ({ success := false, error := some "Could not find device to delete" },
         [exDevice]) := by
  constructor
  · have h := (delete_device_semantics "pulse-device-tokens" [exDevice] "device-7").1
      (by decide)
    rw [h]
    decide
  · exact (delete_device_semantics "" [exDevice] "device-7").2 rfl

/-- C10: re-registering the same owner and endpoint over a previously
retired (inactive) record overwrites it: afterwards exactly one record
carries the key, and every record with that key is active with failure
count 0 and no last-notification timestamp, so retirement is reversible and
the failure history erased. -/
theorem reregistration_reactivates
    (hash16 : String → String) (now : String) (store : SubStore)
    (u ep p a : String) (hu : u ≠ "") (hep : ep ≠ "") (hp : p ≠ "") (ha : a ≠ "")
    (r : SubRecord) (hr : r ∈ store)
    (hkey : r.keyIs u (generateSubscriptionId hash16 ep) = true)
    (hst : r.status = "inactive") :
    ((handleSubscription hash16 now store (mkSubscribeBody u ep p a)).2.filter
      (fun x => x.keyIs u (generateSubscriptionId hash16 ep))).length = 1 ∧
    ∀ x ∈ (handleSubscription hash16 now store (mkSubscribeBody u ep p a)).2,
      x.keyIs u (generateSubscriptionId hash16 ep) = true →
        x.status = "active" ∧ x.failure_count = 0 ∧ x.last_notification_sent = none := by
  rw [handleSubscription_valid hash16 now store u ep p a hu hep hp ha]
  constructor
  · exact countKey_putRecord _ _
  · intro x hx hk
    unfold putRecord at hx
    rcases List.mem_cons.mp hx with h | h
    · subst h
      exact ⟨rfl, rfl, rfl⟩
    · exfalso
      have h2 := (List.mem_filter.mp h).2
      dsimp only at h2
      rw [hk] at h2
      simp at h2

/-- Concrete previously retired record fixture with failure history. -/
def exRecordRetired : SubRecord :=
  { user_id := "u1", subscription_id := "abcdefghijklmnop", subscription := exRawSub,
    status := "inactive", created_at := "T0", updated_at := "T2", failure_count := 7,
    last_notification_sent := some "T1" }

/-- Witness for C10 at a concrete retired record. -/
theorem reregistration_reactivates_witness :
    ((handleSubscription (fun _ => "hashed-id-0123") "T3" [exRecordRetired]
        (mkSubscribeBody "u1" "https://push.example.org/send/abcdefghijklmnop" "pk" "ak")).2.filter
      (fun x => x.keyIs "u1" (generateSubscriptionId (fun _ => "hashed-id-0123")
        "https://push.example.org/send/abcdefghijklmnop"))).length = 1 ∧
    ∀ x ∈ (handleSubscription (fun _ => "hashed-id-0123") "T3" [exRecordRetired]
        (mkSubscribeBody "u1" "https://push.example.org/send/abcdefghijklmnop" "pk" "ak")).2,
      x.keyIs "u1" (generateSubscriptionId (fun _ => "hashed-id-0123")
        "https://push.example.org/send/abcdefghijklmnop") = true →
        x.status = "active" ∧ x.failure_count = 0 ∧ x.last_notification_sent = none :=
  reregistration_reactivates (fun _ => "hashed-id-0123") "T3" [exRecordRetired]
    "u1" "https://push.example.org/send/abcdefghijklmnop" "pk" "ak"
    (by decide) (by decide) (by decide) (by decide)
    exRecordRetired (by decide) (by decide) rfl
